import Mathlib

/-!
Shallow embedding of `table_styler.py` (the `TableStyler` class built on the
pandas `Styler` base) and proofs about its style-rule generation.

A dataframe is modelled as its ordered list of (column name, dtype tag) pairs;
per the data model, column names are unique within a dataset, so
`df.dtypes.to_dict()` is order-preservingly the list itself.  Dtype tags are
plain strings compared by equality, matching how `select_columns_by_type`
compares a column's dtype against the tag list.  Python optional string
arguments are `Option String`; Python truthiness of a string argument
(`if x:` — false for both `None` and `""`) is modelled explicitly.
-/

/-- A property block: the `props` list of (property-name, value) pairs,
as in the module-level constants of the source. -/
structure Props where
  props : List (String × String)
deriving DecidableEq, Repr

/-- A full style rule: a selector together with its property list,
as in the dicts `{"selector": ..., "props": ...}` built by the source. -/
structure StyleRule where
  selector : String
  props : List (String × String)
deriving DecidableEq, Repr

def TEXT_ALIGN_LEFT : Props := ⟨[("text-align", "left")]⟩

def TEXT_ALIGN_RIGHT : Props := ⟨[("text-align", "right")]⟩

def DISPLAY_NONE : Props := ⟨[("display", "none")]⟩

/-- `merge_props(d1, d2)` from the source: `{"props": [*d1["props"], *d2["props"]]}`. -/
def merge_props (d1 d2 : Props) : Props := ⟨d1.props ++ d2.props⟩

/-- A dataframe, reduced to what the source reads from it: the ordered
(column name, dtype tag) pairs. -/
abbrev DataFrame := List (String × String)

/-- `df.columns`: the ordered column names. -/
def DataFrame.columns (df : DataFrame) : List String := df.map Prod.fst

/-- `select_columns_by_type(df, dtypes)` from the source: the names of the
columns whose dtype tag is in `dtypes`, in column order. -/
def select_columns_by_type (df : DataFrame) (dtypes : List String) : List String :=
  (df.filter (fun p => decide (p.2 ∈ dtypes))).map Prod.fst

/-- Python truthiness of an optional string: `None` and `""` are falsy. -/
def truthyStr : Option String → Bool
  | none => false
  | some s => !(s = "")

/-- Python `x if x else d` for an optional string `x`. -/
def pyOr (x : Option String) (d : String) : String :=
  match x with
  | none => d
  | some s => if s = "" then d else s

/-- `TableStyler.get_text_column_styles(columns, text_columns)`: one rule per
column, targeting `td.colN`, left-aligned when the column name is in
`text_columns`, right-aligned otherwise. -/
def get_text_column_styles (columns text_columns : List String) : List StyleRule :=
  columns.enum.map (fun p =>
    let text_align := if decide (p.2 ∈ text_columns) then TEXT_ALIGN_LEFT else TEXT_ALIGN_RIGHT
    { selector := "td.col" ++ toString p.1, props := text_align.props })

/-- `TableStyler.get_default_styles(background, foreground, even_row_background,
odd_row_background)`: the seven default rules, in source order. -/
def get_default_styles (background foreground : String)
    (even_row_background odd_row_background : Option String) : List StyleRule :=
  let table : Props := ⟨[("font-variant-numeric", "tabular-nums"),
    ("border-spacing", "0"), ("line-height", "1.35")]⟩
  let headings : Props := ⟨[("text-transform", "uppercase"), ("color", foreground),
    ("background", background), ("border-collapse", ""), ("padding", "0.75ex 1ch")]⟩
  let even_row_color : Props := ⟨[("background", pyOr even_row_background background)]⟩
  let odd_row_color : Props := ⟨[("background", pyOr odd_row_background "#ffffff")]⟩
  let hover : Props := ⟨[("filter", "brightness(93%)")]⟩
  let cell_padding : Props := ⟨[("padding", "0.5ex 1ch"), ("max-width", "60ch")]⟩
  let sticky : Props := ⟨[("position", "sticky"), ("position", "-webkit-sticky"),
    ("top", "0")]⟩
  [ ⟨"", table.props⟩,
    ⟨"th.col_heading", (merge_props TEXT_ALIGN_LEFT headings).props⟩,
    ⟨"tr:nth-child(even)", even_row_color.props⟩,
    ⟨"tr:nth-child(odd)", odd_row_color.props⟩,
    ⟨"th, tr, td", cell_padding.props⟩,
    ⟨"th", sticky.props⟩,
    ⟨"tbody tr:hover", hover.props⟩ ]

/-- `TableStyler.object_columns`: columns with the generic/object dtype tag. -/
def object_columns (df : DataFrame) : List String :=
  select_columns_by_type df ["O"]

/-- `TableStyler.date_columns`: columns with the nanosecond datetime dtype tag. -/
def date_columns (df : DataFrame) : List String :=
  select_columns_by_type df ["<M8[ns]"]

/-- `TableStyler.numerical_columns`: `list(set(columns) - set(object + date))`.
Python's set order is unspecified; we keep column order, which is irrelevant to
every use (membership and uniform formatting). -/
def numerical_columns (df : DataFrame) : List String :=
  df.columns.filter
    (fun c => !(decide (c ∈ object_columns df ++ date_columns df)))

/-- The state of a `TableStyler` instance that the source manipulates: the
underlying data, the computed `table_styles`, and the per-column display-format
directives accumulated by `Styler.format` calls. -/
structure TableStyler where
  data : DataFrame
  table_styles : List StyleRule
  formats : List (String × String)
deriving DecidableEq, Repr

namespace TableStyler

/-- `TableStyler.__init__`: store the data and eagerly compute `table_styles`
as the default rules followed by the per-column alignment rules. -/
def init (data : DataFrame) (background foreground : String)
    (even_row_background odd_row_background : Option String) : TableStyler :=
  { data := data
    table_styles :=
      get_default_styles background foreground even_row_background odd_row_background
        ++ get_text_column_styles data.columns (object_columns data ++ date_columns data)
    formats := [] }

/-- The pandas `Styler.format(formatter, subset)` call as the source uses it:
record the display-format directive for every column of the subset. -/
def format (s : TableStyler) (formatter : String) (subset : List String) : TableStyler :=
  { s with formats := s.formats ++ subset.map (fun c => (c, formatter)) }

/-- `TableStyler.format_columns(numerical_format, date_format)`: apply the
numerical format to the numerical columns and the date format to the date
columns, each guarded by Python truthiness of the argument. -/
def format_columns (s : TableStyler) (numerical_format date_format : Option String) :
    TableStyler :=
  let s1 := if truthyStr numerical_format then
    s.format (numerical_format.getD "") (numerical_columns s.data) else s
  if truthyStr date_format then
    s1.format (date_format.getD "") (date_columns s.data) else s1

end TableStyler

/-- C7: merging two property blocks concatenates their property lists in order. -/
theorem merge_props_concat (d1 d2 : Props) :
    (merge_props d1 d2).props = d1.props ++ d2.props := rfl

/-- C4: for every configuration, `get_default_styles` returns exactly these
seven rules in this fixed order: the table-level rule (tabular-nums, zero
border-spacing, line-height), the header-cell rule (left alignment merged with
the uppercase/color/background/padding block), the even-row background rule,
the odd-row background rule, the cell padding/max-width rule for `th, tr, td`,
the sticky-header rule with the duplicated vendor-prefixed `position`
property, and the row-hover rule with brightness 93%. -/
theorem get_default_styles_spec (background foreground : String)
    (even_row_background odd_row_background : Option String) :
    get_default_styles background foreground even_row_background odd_row_background =
      [ ⟨"", [("font-variant-numeric", "tabular-nums"), ("border-spacing", "0"),
          ("line-height", "1.35")]⟩,
        ⟨"th.col_heading", [("text-align", "left"), ("text-transform", "uppercase"),
          ("color", foreground), ("background", background), ("border-collapse", ""),
          ("padding", "0.75ex 1ch")]⟩,
        ⟨"tr:nth-child(even)", [("background", pyOr even_row_background background)]⟩,
        ⟨"tr:nth-child(odd)", [("background", pyOr odd_row_background "#ffffff")]⟩,
        ⟨"th, tr, td", [("padding", "0.5ex 1ch"), ("max-width", "60ch")]⟩,
        ⟨"th", [("position", "sticky"), ("position", "-webkit-sticky"), ("top", "0")]⟩,
        ⟨"tbody tr:hover", [("filter", "brightness(93%)")]⟩ ] := rfl

/-! Helper lemmas shared by the claim theorems. -/

theorem get_default_styles_length (background foreground : String)
    (even_row_background odd_row_background : Option String) :
    (get_default_styles background foreground
      even_row_background odd_row_background).length = 7 := rfl

theorem mem_select_columns_by_type_iff {df : DataFrame} {dtypes : List String}
    {c : String} :
    c ∈ select_columns_by_type df dtypes ↔ ∃ ty, (c, ty) ∈ df ∧ ty ∈ dtypes := by
  constructor
  · intro hc
    simp only [select_columns_by_type, List.mem_map, List.mem_filter,
      decide_eq_true_eq] at hc
    obtain ⟨⟨a, b⟩, ⟨hmem, hty⟩, rfl⟩ := hc
    exact ⟨b, hmem, hty⟩
  · rintro ⟨ty, hmem, hty⟩
    simp only [select_columns_by_type, List.mem_map, List.mem_filter,
      decide_eq_true_eq]
    exact ⟨(c, ty), ⟨hmem, hty⟩, rfl⟩

theorem dtype_unique {df : DataFrame} (hnd : df.columns.Nodup) {c a b : String}
    (ha : (c, a) ∈ df) (hb : (c, b) ∈ df) : a = b := by
  have hinj := List.inj_on_of_nodup_map (f := Prod.fst) (l := df) hnd
  have := hinj ha hb rfl
  exact congrArg Prod.snd this

theorem mem_object_columns_iff {df : DataFrame} (hnd : df.columns.Nodup)
    {c ty : String} (h : (c, ty) ∈ df) :
    c ∈ object_columns df ↔ ty = "O" := by
  rw [object_columns, mem_select_columns_by_type_iff]
  constructor
  · rintro ⟨ty2, hmem, hty2⟩
    simp only [List.mem_singleton] at hty2
    exact (dtype_unique hnd h hmem).trans hty2
  · intro hty
    exact ⟨ty, h, by simp [hty]⟩

theorem mem_date_columns_iff {df : DataFrame} (hnd : df.columns.Nodup)
    {c ty : String} (h : (c, ty) ∈ df) :
    c ∈ date_columns df ↔ ty = "<M8[ns]" := by
  rw [date_columns, mem_select_columns_by_type_iff]
  constructor
  · rintro ⟨ty2, hmem, hty2⟩
    simp only [List.mem_singleton] at hty2
    exact (dtype_unique hnd h hmem).trans hty2
  · intro hty
    exact ⟨ty, h, by simp [hty]⟩

theorem mem_text_columns_iff {df : DataFrame} (hnd : df.columns.Nodup)
    {c ty : String} (h : (c, ty) ∈ df) :
    c ∈ object_columns df ++ date_columns df ↔ (ty = "O" ∨ ty = "<M8[ns]") := by
  rw [List.mem_append, mem_object_columns_iff hnd h, mem_date_columns_iff hnd h]

theorem mem_numerical_columns_iff {df : DataFrame} (hnd : df.columns.Nodup)
    {c ty : String} (h : (c, ty) ∈ df) :
    c ∈ numerical_columns df ↔ (ty ≠ "O" ∧ ty ≠ "<M8[ns]") := by
  have hcol : c ∈ df.columns := by
    simpa [DataFrame.columns] using List.mem_map_of_mem Prod.fst h
  rw [numerical_columns, List.mem_filter]
  simp only [Bool.not_eq_true', decide_eq_false_iff_not]
  rw [mem_text_columns_iff hnd h]
  constructor
  · rintro ⟨-, hne⟩
    exact ⟨fun h1 => hne (Or.inl h1), fun h2 => hne (Or.inr h2)⟩
  · rintro ⟨h1, h2⟩
    exact ⟨hcol, by rintro (rfl | rfl) <;> simp_all⟩

theorem table_styles_align_getElem (df : DataFrame) (bg fg : String)
    (erb orb : Option String) {n : Nat} {c ty : String}
    (h : df[n]? = some (c, ty)) :
    (TableStyler.init df bg fg erb orb).table_styles[7 + n]? =
      some ⟨"td.col" ++ toString n,
        (if decide (c ∈ object_columns df ++ date_columns df) = true
         then TEXT_ALIGN_LEFT else TEXT_ALIGN_RIGHT).props⟩ := by
  show (get_default_styles bg fg erb orb ++
    get_text_column_styles df.columns
      (object_columns df ++ date_columns df))[7 + n]? = _
  rw [List.getElem?_append_right (by simp [get_default_styles_length])]
  have hcol : df.columns[n]? = some c := by
    simp [DataFrame.columns, List.getElem?_map, h]
  simp [get_default_styles_length, get_text_column_styles, List.getElem?_map,
    List.getElem?_enum, hcol]

theorem format_columns_preserves (s : TableStyler) (nf dfmt : Option String) :
    (s.format_columns nf dfmt).table_styles = s.table_styles ∧
    (s.format_columns nf dfmt).data = s.data := by
  unfold TableStyler.format_columns TableStyler.format
  constructor <;> dsimp only <;> split <;> split <;> rfl

/-- C1: in the computed style list, the alignment rule of the column at
position `n` (the rule with selector `td.colN`, sitting after the seven
default rules) is `text-align: left` when the column's dtype tag is the
object tag or the nanosecond datetime tag, and `text-align: right` for every
other dtype tag. -/
theorem alignment_by_dtype (df : DataFrame) (bg fg : String)
    (erb orb : Option String) (hnd : df.columns.Nodup) (n : Nat) (c ty : String)
    (h : df[n]? = some (c, ty)) :
    (TableStyler.init df bg fg erb orb).table_styles[7 + n]? =
      some ⟨"td.col" ++ toString n,
        if ty = "O" ∨ ty = "<M8[ns]" then [("text-align", "left")]
        else [("text-align", "right")]⟩ := by
  rw [table_styles_align_getElem df bg fg erb orb h]
  have hmem : (c, ty) ∈ df := List.getElem?_mem h
  have htext := mem_text_columns_iff hnd hmem
  by_cases hty : ty = "O" ∨ ty = "<M8[ns]"
  · simp [hty, htext.2 hty, TEXT_ALIGN_LEFT]
  · have : c ∉ object_columns df ++ date_columns df := fun hc => hty (htext.1 hc)
    simp [hty, this, TEXT_ALIGN_RIGHT]

theorem alignment_by_dtype_witness :
    (TableStyler.init [("a", "O"), ("b", "int64")] "#fff4f9" "#b28d9f"
        none none).table_styles[7 + 1]? =
      some ⟨"td.col" ++ toString 1,
        if "int64" = "O" ∨ "int64" = "<M8[ns]" then [("text-align", "left")]
        else [("text-align", "right")]⟩ :=
  alignment_by_dtype [("a", "O"), ("b", "int64")] "#fff4f9" "#b28d9f" none none
    (by decide) 1 "b" "int64" (by decide)

/-- C2: the per-column alignment rules number exactly one per column, and the
rule at position `n` targets the cell at column position `n` via the selector
`td.colN`. -/
theorem alignment_rules_count_and_target (columns text_columns : List String) :
    (get_text_column_styles columns text_columns).length = columns.length ∧
    ∀ n, n < columns.length →
      ((get_text_column_styles columns text_columns)[n]?).map StyleRule.selector =
        some ("td.col" ++ toString n) := by
  constructor
  · simp [get_text_column_styles]
  · intro n hn
    have hcol : columns[n]? = some columns[n] := List.getElem?_eq_getElem hn
    simp [get_text_column_styles, List.getElem?_map, List.getElem?_enum, hcol]

theorem alignment_rules_count_and_target_witness :
    (get_text_column_styles ["x", "y"] ["y"]).length = (["x", "y"] : List String).length ∧
    ((get_text_column_styles ["x", "y"] ["y"])[1]?).map StyleRule.selector =
      some ("td.col" ++ toString 1) :=
  ⟨(alignment_rules_count_and_target ["x", "y"] ["y"]).1,
   (alignment_rules_count_and_target ["x", "y"] ["y"]).2 1 (by decide)⟩

/-- C3: a column is classified Text (member of `object_columns`) exactly when
its dtype tag is the object tag, Date (member of `date_columns`) exactly when
its dtype tag is the nanosecond datetime tag, and Numeric (member of
`numerical_columns`) in every other case — any unrecognized tag falls back to
Numeric, with no error case. -/
theorem classifier_cases (df : DataFrame) (c ty : String)
    (hnd : df.columns.Nodup) (h : (c, ty) ∈ df) :
    (c ∈ object_columns df ↔ ty = "O") ∧
    (c ∈ date_columns df ↔ ty = "<M8[ns]") ∧
    (c ∈ numerical_columns df ↔ (ty ≠ "O" ∧ ty ≠ "<M8[ns]")) :=
  ⟨mem_object_columns_iff hnd h, mem_date_columns_iff hnd h,
   mem_numerical_columns_iff hnd h⟩

theorem classifier_cases_witness :
    ("w" ∈ object_columns [("w", "weird-tag")] ↔ "weird-tag" = "O") ∧
    ("w" ∈ date_columns [("w", "weird-tag")] ↔ "weird-tag" = "<M8[ns]") ∧
    ("w" ∈ numerical_columns [("w", "weird-tag")] ↔
      ("weird-tag" ≠ "O" ∧ "weird-tag" ≠ "<M8[ns]")) :=
  classifier_cases [("w", "weird-tag")] "w" "weird-tag" (by decide) (by decide)

/-- C5 counterexample: supplying the empty string as `even_row_background` does
not make the even-row rule use the supplied value; the rule falls back to
`background` because presence is tested by truthiness. -/
theorem row_background_supplied_counterexample :
    (get_default_styles "#fff4f9" "#b28d9f" (some "") none)[2]? =
      some ⟨"tr:nth-child(even)", [("background", "#fff4f9")]⟩ ∧
    (get_default_styles "#fff4f9" "#b28d9f" (some "") none)[2]? ≠
      some ⟨"tr:nth-child(even)", [("background", "")]⟩ := by
  refine ⟨rfl, ?_⟩
  decide

/-- C5 (amended): when `even_row_background` is omitted the even-row rule's
background is `background`; when `odd_row_background` is omitted the odd-row
rule's background is white; when either is supplied a NON-EMPTY value that
value is used (an empty string behaves as if the argument were omitted). -/
theorem row_background_defaults (bg fg v w : String) (erb orb : Option String)
    (hv : v ≠ "") (hw : w ≠ "") :
    (get_default_styles bg fg none orb)[2]? =
      some ⟨"tr:nth-child(even)", [("background", bg)]⟩ ∧
    (get_default_styles bg fg erb none)[3]? =
      some ⟨"tr:nth-child(odd)", [("background", "#ffffff")]⟩ ∧
    (get_default_styles bg fg (some v) orb)[2]? =
      some ⟨"tr:nth-child(even)", [("background", v)]⟩ ∧
    (get_default_styles bg fg erb (some w))[3]? =
      some ⟨"tr:nth-child(odd)", [("background", w)]⟩ := by
  refine ⟨?_, ?_, ?_, ?_⟩ <;> simp [get_default_styles, pyOr, hv, hw]

theorem row_background_defaults_witness :
    (get_default_styles "#aaa" "#bbb" none none)[2]? =
      some ⟨"tr:nth-child(even)", [("background", "#aaa")]⟩ ∧
    (get_default_styles "#aaa" "#bbb" none none)[3]? =
      some ⟨"tr:nth-child(odd)", [("background", "#ffffff")]⟩ ∧
    (get_default_styles "#aaa" "#bbb" (some "#ccc") none)[2]? =
      some ⟨"tr:nth-child(even)", [("background", "#ccc")]⟩ ∧
    (get_default_styles "#aaa" "#bbb" none (some "#ddd"))[3]? =
      some ⟨"tr:nth-child(odd)", [("background", "#ddd")]⟩ := by
  have h := row_background_defaults "#aaa" "#bbb" "#ccc" "#ddd" none none
    (by decide) (by decide)
  exact ⟨h.1, h.2.1, h.2.2.1, h.2.2.2⟩

/-- C6: `format_columns(None, None)` returns the builder unchanged, and for
every pair of arguments `format_columns` leaves `table_styles` (and the data)
untouched — it only changes the display-format directives. -/
theorem format_columns_frame (s : TableStyler) (nf dfmt : Option String) :
    s.format_columns none none = s ∧
    (s.format_columns nf dfmt).table_styles = s.table_styles ∧
    (s.format_columns nf dfmt).data = s.data :=
  ⟨rfl, (format_columns_preserves s nf dfmt).1, (format_columns_preserves s nf dfmt).2⟩

/-- C8: the style list computed at construction has exactly `7 + n` rules for
an `n`-column dataset — the seven default rules first, then the `n` per-column
alignment rules in column order — and `format_columns` never changes it. -/
theorem table_styles_shape (df : DataFrame) (bg fg : String)
    (erb orb : Option String) (nf dfmt : Option String) :
    (TableStyler.init df bg fg erb orb).table_styles.length = 7 + df.length ∧
    (TableStyler.init df bg fg erb orb).table_styles.take 7 =
      get_default_styles bg fg erb orb ∧
    (TableStyler.init df bg fg erb orb).table_styles.drop 7 =
      get_text_column_styles df.columns (object_columns df ++ date_columns df) ∧
    ((TableStyler.init df bg fg erb orb).format_columns nf dfmt).table_styles =
      (TableStyler.init df bg fg erb orb).table_styles := by
  refine ⟨?_, ?_, ?_, (format_columns_preserves _ nf dfmt).1⟩
  · show (get_default_styles bg fg erb orb ++
      get_text_column_styles df.columns
        (object_columns df ++ date_columns df)).length = 7 + df.length
    simp [get_default_styles_length, get_text_column_styles, DataFrame.columns]
  · exact List.take_left' (get_default_styles_length bg fg erb orb)
  · exact List.drop_left' (get_default_styles_length bg fg erb orb)

/-- C9: optional arguments are tested by truthiness, not by comparison to
`None`: passing the empty string as `even_row_background` or
`odd_row_background` yields exactly the rules of the omitted case, and
passing the empty string as both formats to `format_columns` applies no
formatting at all. -/
theorem empty_string_behaves_as_omitted (bg fg : String) (erb orb : Option String)
    (s : TableStyler) :
    get_default_styles bg fg (some "") orb = get_default_styles bg fg none orb ∧
    get_default_styles bg fg erb (some "") = get_default_styles bg fg erb none ∧
    s.format_columns (some "") (some "") = s := by
  refine ⟨?_, ?_, rfl⟩ <;> simp [get_default_styles, pyOr]

theorem format_columns_formats (df : DataFrame) (bg fg : String)
    (erb orb : Option String) (nf dfmt : String) (hnf : nf ≠ "") :
    ((TableStyler.init df bg fg erb orb).format_columns (some nf) (some dfmt)).formats =
      (numerical_columns df).map (fun c2 => (c2, nf)) ++
        (if dfmt = "" then []
         else (date_columns df).map (fun c2 => (c2, dfmt))) := by
  unfold TableStyler.format_columns TableStyler.format TableStyler.init
  have htr : truthyStr (some nf) = true := by simp [truthyStr, hnf]
  by_cases hd : dfmt = ""
  · simp [htr, truthyStr, hd, hnf]
  · simp [htr, truthyStr, hd, hnf]

/-- C10: only the exact nanosecond datetime tag is classified Date; a column
with any other datetime variant tag is classified Numeric, hence its alignment
rule is `text-align: right` and under `format_columns` it receives the numeric
display format and never the date one. -/
theorem non_ns_datetime_is_numeric (df : DataFrame) (bg fg : String)
    (erb orb : Option String) (nf dfmt : String) (n : Nat) (c ty : String)
    (hnd : df.columns.Nodup) (h : df[n]? = some (c, ty))
    (hty1 : ty ≠ "O") (hty2 : ty ≠ "<M8[ns]") (hnf : nf ≠ "") :
    c ∉ date_columns df ∧ c ∈ numerical_columns df ∧
    (TableStyler.init df bg fg erb orb).table_styles[7 + n]? =
      some ⟨"td.col" ++ toString n, [("text-align", "right")]⟩ ∧
    ∀ x, ((c, x) ∈ ((TableStyler.init df bg fg erb orb).format_columns
        (some nf) (some dfmt)).formats ↔ x = nf) := by
  have hmem : (c, ty) ∈ df := List.getElem?_mem h
  have hdate : c ∉ date_columns df := fun hc =>
    hty2 ((mem_date_columns_iff hnd hmem).1 hc)
  have hnum : c ∈ numerical_columns df :=
    (mem_numerical_columns_iff hnd hmem).2 ⟨hty1, hty2⟩
  refine ⟨hdate, hnum, ?_, ?_⟩
  · rw [table_styles_align_getElem df bg fg erb orb h]
    have htext : c ∉ object_columns df ++ date_columns df := fun hc => by
      rcases (mem_text_columns_iff hnd hmem).1 hc with h1 | h2
      · exact hty1 h1
      · exact hty2 h2
    simp [htext, TEXT_ALIGN_RIGHT]
  · intro x
    rw [format_columns_formats df bg fg erb orb nf dfmt hnf]
    by_cases hd : dfmt = ""
    · simp only [if_pos hd, List.append_nil, List.mem_map, Prod.mk.injEq]
      constructor
      · rintro ⟨c2, _, rfl, rfl⟩
        rfl
      · rintro rfl
        exact ⟨c, hnum, rfl, rfl⟩
    · simp only [if_neg hd, List.mem_append, List.mem_map, Prod.mk.injEq]
      constructor
      · rintro (⟨c2, _, rfl, rfl⟩ | ⟨c2, hc2, rfl, rfl⟩)
        · rfl
        · exact absurd hc2 hdate
      · rintro rfl
        exact Or.inl ⟨c, hnum, rfl, rfl⟩

theorem non_ns_datetime_is_numeric_witness :
    "t" ∉ date_columns [("t", "datetime64[ns, UTC]")] ∧
    "t" ∈ numerical_columns [("t", "datetime64[ns, UTC]")] ∧
    (TableStyler.init [("t", "datetime64[ns, UTC]")] "#fff4f9" "#b28d9f"
        none none).table_styles[7 + 0]? =
      some ⟨"td.col" ++ toString 0, [("text-align", "right")]⟩ ∧
    (("t", "num-fmt") ∈ ((TableStyler.init [("t", "datetime64[ns, UTC]")]
        "#fff4f9" "#b28d9f" none none).format_columns
        (some "num-fmt") (some "date-fmt")).formats ↔ "num-fmt" = "num-fmt") := by
  have h := non_ns_datetime_is_numeric [("t", "datetime64[ns, UTC]")]
    "#fff4f9" "#b28d9f" none none "num-fmt" "date-fmt" 0 "t" "datetime64[ns, UTC]"
    (by decide) (by decide) (by decide) (by decide) (by decide)
  exact ⟨h.1, h.2.1, h.2.2.1, h.2.2.2 "num-fmt"⟩
